import Mathlib

/-!
Shallow embedding of the credential resolution / caching subsystem and the
connection-presence coordinator of the `ha_tuya_ble` integration
(`custom_components/tuya_ble/cloud.py`, `devices.py`,
`tuya_ble/manager.py`), together with proofs settling the frozen claims.

Python dictionaries are modelled as association lists with unique-key
insertion semantics (`alinsert` replaces the first occurrence of a key in
place, else appends); `dict.get` returning `None` for an absent key is
`alget` composed with `Option.join` (`pyGet`), since stored values are
themselves `Option String` (Python values may be `None`).

Network I/O (the Tuya open-API `connect` call, the device-list fetch and the
per-device factory-info fetch) is modelled by a deterministic oracle
(`Env`) and every operation additionally returns the list of network calls
it performed, so that "performs no network I/O" is the statement that this
list is empty.
-/

/-- Association-list lookup: first binding of the key, as in a Python dict
(keys are unique in dicts built by the code, so first-match is exact). -/
def alget {α : Type} : List (String × α) → String → Option α
  | [], _ => none
  | p :: rest, k => if p.1 = k then some p.2 else alget rest k

/-- Association-list insertion with Python-dict semantics: replace the first
binding of the key in place, otherwise append at the end. -/
def alinsert {α : Type} : List (String × α) → String → α → List (String × α)
  | [], k, v => [(k, v)]
  | p :: rest, k, v => if p.1 = k then (k, v) :: rest else p :: alinsert rest k v

/-- A Python dict whose values may be `None`: `some none` is a key bound to
`None`, `none` (from `alget`) is an absent key. -/
abbrev DataMap := List (String × Option String)

/-- Python `data.get(key)`: `None` both for an absent key and for a key bound
to `None` (this is exactly the distinction `is not None` checks collapse). -/
def pyGet (m : DataMap) (k : String) : Option String := (alget m k).join

/-- Python `key in data`. -/
def pyContains (m : DataMap) (k : String) : Bool := (alget m k).isSome

/-- Python `dict.update`: fold the right-hand dict's bindings into the left. -/
def dictUpdate (m upd : DataMap) : DataMap :=
  upd.foldl (fun acc p => alinsert acc p.1 p.2) m

/-- Python truthiness of an optional string value: `None` and `""` are falsy. -/
def pyTruthy : Option String → Bool
  | none => false
  | some s => !s.isEmpty

/- Configuration-field key constants.  `CONF_ENDPOINT`, `CONF_ADDRESS`,
`CONF_DEVICE_ID`, `CONF_USERNAME`, `CONF_PASSWORD`, `CONF_COUNTRY_CODE` come
from external Home Assistant packages; the rest live in the integration's
`const.py`, which is not part of the provided sources. -/

/-- Home Assistant constant: endpoint configuration key. -/
def CONF_ENDPOINT : String := "endpoint"

/-- Modelled from the spec: "access id" login field key, from the missing
`const.py`. Only distinctness of the six login keys matters. -/
def CONF_ACCESS_ID : String := "access_id"

/-- Modelled from the spec: "access secret" login field key, from the missing
`const.py`. -/
def CONF_ACCESS_SECRET : String := "access_secret"

/-- Home Assistant constant: username configuration key. -/
def CONF_USERNAME : String := "username"

/-- Home Assistant constant: password configuration key. -/
def CONF_PASSWORD : String := "password"

/-- Home Assistant constant: country code configuration key. -/
def CONF_COUNTRY_CODE : String := "country_code"

/-- Home Assistant constant: hardware address configuration key. -/
def CONF_ADDRESS : String := "address"

/-- Modelled from the spec: pairing UUID credential field key, from the
missing `const.py`. -/
def CONF_UUID : String := "uuid"

/-- Modelled from the spec: local symmetric key credential field key, from
the missing `const.py`. -/
def CONF_LOCAL_KEY : String := "local_key"

/-- Home Assistant constant: device identifier configuration key. -/
def CONF_DEVICE_ID : String := "device_id"

/-- Modelled from the spec: category credential field key, from the missing
`const.py`. -/
def CONF_CATEGORY : String := "category"

/-- Modelled from the spec: product identifier credential field key, from the
missing `const.py`. -/
def CONF_PRODUCT_ID : String := "product_id"

/-- Modelled from the spec: device name credential field key, from the
missing `const.py`. -/
def CONF_DEVICE_NAME : String := "device_name"

/-- Modelled from the spec: product name credential field key, from the
missing `const.py`. -/
def CONF_PRODUCT_NAME : String := "product_name"

/-- Modelled from the spec: product model credential field key, from the
missing `const.py`. -/
def CONF_PRODUCT_MODEL : String := "product_model"

/-- The six login-context keys, in source order (`cloud.py`). -/
def CONF_TUYA_LOGIN_KEYS : List String :=
  [CONF_ENDPOINT, CONF_ACCESS_ID, CONF_ACCESS_SECRET,
   CONF_USERNAME, CONF_PASSWORD, CONF_COUNTRY_CODE]

/-- The eight device-credential keys, in source order (`cloud.py`): the five
mandatory fields followed by device name, product name and product model. -/
def CONF_TUYA_DEVICE_KEYS : List String :=
  [CONF_UUID, CONF_LOCAL_KEY, CONF_DEVICE_ID, CONF_CATEGORY,
   CONF_PRODUCT_ID, CONF_DEVICE_NAME, CONF_PRODUCT_NAME, CONF_PRODUCT_MODEL]

/-- The five mandatory credential fields named by the spec (a strict prefix
of `CONF_TUYA_DEVICE_KEYS`); used only to state claims about "mandatory"
fields, never inside the embedded code. -/
def MANDATORY_CREDENTIAL_KEYS : List String :=
  [CONF_UUID, CONF_LOCAL_KEY, CONF_DEVICE_ID, CONF_CATEGORY, CONF_PRODUCT_ID]

/-- `TuyaBLEDeviceCredentials` (`tuya_ble/manager.py`): a plain dataclass
with five string fields and three optional ones; the dataclass performs no
runtime validation. -/
structure TuyaBLEDeviceCredentials where
  uuid : String
  local_key : String
  device_id : String
  category : String
  product_id : String
  device_name : Option String
  product_model : Option String
  product_name : Option String
deriving DecidableEq, Repr

/-- `TuyaBLEDeviceCredentials.create` (`tuya_ble/manager.py`): simply calls
the dataclass constructor with the given fields — no validation of any
kind, no exception path. -/
def TuyaBLEDeviceCredentials.create
    (uuid local_key device_id category product_id : String)
    (device_name product_model product_name : Option String := none) :
    TuyaBLEDeviceCredentials :=
  ⟨uuid, local_key, device_id, category, product_id,
   device_name, product_model, product_name⟩

/-- JSON rendering of one value as `json.dumps` would produce (`null` for
`None`); escaping details are irrelevant to the claims. -/
def jsonValue : Option String → String
  | none => "null"
  | some s => "\"" ++ s ++ "\""

/-- JSON rendering of the key dict as `json.dumps` produces for a dict of
string keys and string-or-`None` values. -/
def jsonDumps (l : List (String × Option String)) : String :=
  "\x7b" ++ String.intercalate ", "
      (l.map (fun p => "\"" ++ p.1 ++ "\": " ++ jsonValue p.2)) ++ "\x7d"

/-- The dict comprehension `{key: data.get(key) for key in
CONF_TUYA_LOGIN_KEYS}` built inside `_get_cache_key` (`cloud.py`). -/
def keyDict (data : DataMap) : List (String × Option String) :=
  CONF_TUYA_LOGIN_KEYS.map (fun k => (k, pyGet data k))

/-- `_get_cache_key` (`cloud.py`): `json.dumps` of the six login fields read
with `data.get` (absent fields become `None`/`null`). -/
def getCacheKey (data : DataMap) : String := jsonDumps (keyDict data)

/-- `_has_login` (`cloud.py`): all six login keys present and not `None`. -/
def hasLogin (data : DataMap) : Bool :=
  CONF_TUYA_LOGIN_KEYS.all (fun k => (pyGet data k).isSome)

/-- `_has_credentials` (`cloud.py`): all eight keys of
`CONF_TUYA_DEVICE_KEYS` present and not `None`. -/
def hasCredentials (data : DataMap) : Bool :=
  CONF_TUYA_DEVICE_KEYS.all (fun k => (pyGet data k).isSome)

/-- `_create_credentials_from_dict` (`cloud.py`): reads the five mandatory
fields with `.get` and requires each to be truthy (not `None`, not empty);
on failure returns `None` — it never raises. -/
def createCredentialsFromDict (credentials : DataMap) :
    Option TuyaBLEDeviceCredentials :=
  match pyGet credentials CONF_UUID, pyGet credentials CONF_LOCAL_KEY,
      pyGet credentials CONF_DEVICE_ID, pyGet credentials CONF_CATEGORY,
      pyGet credentials CONF_PRODUCT_ID with
  | some u, some l, some d, some c, some p =>
    if !u.isEmpty && !l.isEmpty && !d.isEmpty && !c.isEmpty && !p.isEmpty then
      some (TuyaBLEDeviceCredentials.create u l d c p
        (pyGet credentials CONF_DEVICE_NAME)
        (pyGet credentials CONF_PRODUCT_MODEL)
        (pyGet credentials CONF_PRODUCT_NAME))
    else none
  | _, _, _, _, _ => none

/-- Result of the remote `TuyaOpenAPI.connect` call, as far as the embedded
code inspects it: `_is_login_success` reads only the `success` flag (with
default `False`); the error code/message ride along for diagnostics. -/
structure Response where
  success : Bool
  code : Option String
  msg : Option String
deriving DecidableEq, Repr

/-- The `{}` dict returned by `_login` on empty input: no `success` key, so
`_is_login_success` sees the default `False`. -/
def emptyResponse : Response := ⟨false, none, none⟩

/-- `_is_login_success` (`cloud.py`): `bool(response.get("success", False))`. -/
def isLoginSuccess (r : Response) : Bool := r.success

/-- One record of the account's device list, as far as `_fill_cache_item`
reads it: every field is accessed with `.get`, hence optional. -/
structure Device where
  id : Option String
  uuid : Option String
  local_key : Option String
  category : Option String
  product_id : Option String
  name : Option String
  model : Option String
  product_name : Option String
deriving DecidableEq, Repr

/-- The device-list response, as far as `_fill_cache_item` inspects it: the
`success` flag and the `result` field, which participates only when it is an
iterable list of device records. -/
structure DevicesResponse where
  success : Bool
  result : Option (List Device)
deriving Repr

/-- `TuyaCloudCacheItem` (`cloud.py`): the API handle (modelled by the login
data it was created from and connected with), the login snapshot, and the
per-address credentials table (each value a Python dict). -/
structure TuyaCloudCacheItem where
  api : Option DataMap
  login : DataMap
  credentials : List (String × DataMap)
deriving DecidableEq, Repr

/-- The process-wide `_cache` (`cloud.py`): a dict from the JSON cache key to
a cache item. -/
abbrev Cache := List (String × TuyaCloudCacheItem)

/-- One network request performed by the embedded code: the API `connect`
call of `_login`, the device-list fetch of `_fill_cache_item`, or one
per-device factory-info fetch. -/
inductive NetCall where
  | connect (data : DataMap)
  | fetchDevices (api : DataMap)
  | fetchFactory (deviceId : Option String)
deriving DecidableEq, Repr

/-- Deterministic oracle for the remote service.  `factoryResp` returns the
factory-info `result` list (`none` when absent or not a list); each element
is the record's MAC field when the record is truthy and holds one, `none`
when that device must be skipped. -/
structure Env where
  connectResp : DataMap → Response
  devicesResp : DataMap → DevicesResponse
  factoryResp : Option String → Option (List (Option String))

/-- The exception the embedded code can actually raise: `data[CONF_USERNAME]`
on a dict lacking the key. -/
inductive PyErr where
  | keyError
deriving DecidableEq, Repr

/-- `CacheConfiguration` (`cloud.py`). -/
inductive CacheConfiguration where
  | ENABLE
  | DISABLE
deriving DecidableEq, Repr

/-- Result of `_login`: the response (or the raised `KeyError`), the cache
state afterwards and the network calls performed (also on the error path,
since the `KeyError` is raised after the remote call returned). -/
structure LoginOut where
  res : Except PyErr Response
  cache : Cache
  net : List NetCall
deriving Repr

/-- `_login` (`cloud.py`): empty data short-circuits to `{}` with no network
call; otherwise the remote connect runs, both the success and the failure
branch then log `data[CONF_USERNAME]` (a `KeyError` when the key is absent),
and only a successful login with caching enabled touches the cache —
replacing the entry's api/login in place or creating a fresh entry with an
empty credentials table. -/
def loginImpl (env : Env) (data : DataMap) (cc : CacheConfiguration)
    (cache : Cache) : LoginOut :=
  if data.isEmpty then ⟨.ok emptyResponse, cache, []⟩
  else
    let response := env.connectResp data
    let net := [NetCall.connect data]
    if isLoginSuccess response then
      match alget data CONF_USERNAME with
      | none => ⟨.error .keyError, cache, net⟩
      | some _ =>
        let cache' :=
          if cc = CacheConfiguration.ENABLE then
            match alget cache (getCacheKey data) with
            | some item =>
              alinsert cache (getCacheKey data)
                { item with api := some data, login := data }
            | none =>
              alinsert cache (getCacheKey data) ⟨some data, data, []⟩
          else cache
        ⟨.ok response, cache', net⟩
    else
      match alget data CONF_USERNAME with
      | none => ⟨.error .keyError, cache, net⟩
      | some _ => ⟨.ok response, cache, net⟩

/-- `login` (`cloud.py`): `_login` on the manager's own data. -/
def login (env : Env) (selfData : DataMap) (cc : CacheConfiguration)
    (cache : Cache) : LoginOut :=
  loginImpl env selfData cc cache

/-- `login_cached` (`cloud.py`): identical body to `login`. -/
def loginCached (env : Env) (selfData : DataMap) (cc : CacheConfiguration)
    (cache : Cache) : LoginOut :=
  loginImpl env selfData cc cache

/-- The MAC canonicalisation inside `_fill_cache_item`:
`":".join(mac[i:i+2] for i in range(0, 12, 2)).upper()`. -/
def canonicalMac (s : String) : String :=
  (String.intercalate ":"
    ((List.range 6).map
      (fun i => String.mk ((s.toList.drop (2 * i)).take 2)))).toUpper

/-- The credentials dict stored under a canonical address by
`_fill_cache_item`, built from `.get` reads of the device record. -/
def credRecord (mac : String) (d : Device) : DataMap :=
  [(CONF_ADDRESS, some mac), (CONF_UUID, d.uuid),
   (CONF_LOCAL_KEY, d.local_key), (CONF_DEVICE_ID, d.id),
   (CONF_CATEGORY, d.category), (CONF_PRODUCT_ID, d.product_id),
   (CONF_DEVICE_NAME, d.name), (CONF_PRODUCT_MODEL, d.model),
   (CONF_PRODUCT_NAME, d.product_name)]

/-- The per-device loop of `_fill_cache_item`: one factory-info fetch per
device; a device whose factory result is absent, empty, falsy or lacks the
MAC field is skipped, otherwise its record is stored under the canonical
address (replacing any previous record for that address). -/
def fillDevicesLoop (env : Env) (devs : List Device)
    (creds : List (String × DataMap)) :
    List (String × DataMap) × List NetCall :=
  match devs with
  | [] => (creds, [])
  | d :: rest =>
    let creds' :=
      match env.factoryResp d.id with
      | some (some mac :: _) =>
        alinsert creds (canonicalMac mac) (credRecord (canonicalMac mac) d)
      | _ => creds
    let out := fillDevicesLoop env rest creds'
    (out.1, NetCall.fetchFactory d.id :: out.2)

/-- `_fill_cache_item` (`cloud.py`): no-op without an API handle; otherwise
one device-list fetch, and — when it succeeds with an iterable result — the
per-device loop merging records into the item's credentials table. -/
def fillCacheItem (env : Env) (item : TuyaCloudCacheItem) :
    TuyaCloudCacheItem × List NetCall :=
  match item.api with
  | none => (item, [])
  | some api =>
    let dresp := env.devicesResp api
    if dresp.success then
      match dresp.result with
      | some devs =>
        let out := fillDevicesLoop env devs item.credentials
        ({ item with credentials := out.1 },
         NetCall.fetchDevices api :: out.2)
      | none => (item, [NetCall.fetchDevices api])
    else (item, [NetCall.fetchDevices api])

/-- The scan loop of `_find_cache_key_for_address` (`cloud.py`): first cache
entry whose credentials table holds the address. -/
def scanCache : Cache → String → Option String
  | [], _ => none
  | (k, item) :: rest, addr =>
    if (alget item.credentials addr).isSome then some k
    else scanCache rest addr

/-- `_find_cache_key_for_address` (`cloud.py`): the own data's key when the
data is a complete login context, otherwise the cache scan. -/
def findCacheKeyForAddress (selfData : DataMap) (cache : Cache)
    (address : String) : Option String :=
  if hasLogin selfData then some (getCacheKey selfData)
  else scanCache cache address

/-- Result of `_ensure_cache_item` and of `get_device_credentials`-style
operations that can raise, mutate the cache and perform network calls. -/
structure EnsureOut where
  res : Except PyErr (Option TuyaCloudCacheItem)
  cache : Cache
  net : List NetCall
deriving Repr

/-- `_ensure_cache_item` (`cloud.py`): nothing without a key; a missing entry
triggers `login(ENABLE)` on the manager's own data (whose key need not be
the requested one) followed by a fresh lookup; any entry found is filled
unconditionally and written back (the Python code mutates the aliased cache
entry in place). -/
def ensureCacheItem (env : Env) (cacheKey : Option String)
    (selfData : DataMap) (cache : Cache) : EnsureOut :=
  match cacheKey with
  | none => ⟨.ok none, cache, []⟩
  | some key =>
    match alget cache key with
    | none =>
      let lo := loginImpl env selfData CacheConfiguration.ENABLE cache
      match lo.res with
      | .error e => ⟨.error e, lo.cache, lo.net⟩
      | .ok resp =>
        if isLoginSuccess resp then
          match alget lo.cache key with
          | some it =>
            let out := fillCacheItem env it
            ⟨.ok (some out.1), alinsert lo.cache key out.1, lo.net ++ out.2⟩
          | none => ⟨.ok none, lo.cache, lo.net⟩
        else ⟨.ok none, lo.cache, lo.net⟩
    | some it =>
      let out := fillCacheItem env it
      ⟨.ok (some out.1), alinsert cache key out.1, out.2⟩

/-- Result of `get_device_credentials`: the returned credentials (or raised
error), the manager's data afterwards, the cache afterwards and the network
calls performed. -/
structure GdcOut where
  res : Except PyErr (Option TuyaBLEDeviceCredentials)
  data : DataMap
  cache : Cache
  net : List NetCall
deriving Repr

/-- The shared tail of `get_device_credentials` (`cloud.py`), from the
`if not credentials` guard on: a missing or falsy (empty) credentials dict
returns `None`; otherwise the result is built from the dict, and with
`save_data` the manager's data is updated first with the cache item's login
snapshot (when an item was used) and then with the credentials dict —
regardless of whether the built result is `None`. -/
def gdcFinish (itemOpt : Option TuyaCloudCacheItem)
    (credentials : Option DataMap) (selfData : DataMap) (saveData : Bool)
    (cache : Cache) (net : List NetCall) : GdcOut :=
  match credentials with
  | none => ⟨.ok none, selfData, cache, net⟩
  | some cred =>
    if cred.isEmpty then ⟨.ok none, selfData, cache, net⟩
    else
      let result := createCredentialsFromDict cred
      let d1 :=
        if saveData then
          match itemOpt with
          | some it => dictUpdate selfData it.login
          | none => selfData
        else selfData
      let d2 := if saveData then dictUpdate d1 cred else d1
      ⟨.ok result, d2, cache, net⟩

/-- `get_device_credentials` (`cloud.py`): with `force_update` unset and a
complete local credential set, the local data (copied) is used with no cache
item; otherwise a cache key is determined, `_ensure_cache_item` runs exactly
when `force_update` is set or the key has no entry yet, and the address is
looked up in the resulting item's credentials table. -/
def getDeviceCredentials (env : Env) (address : String)
    (forceUpdate saveData : Bool) (selfData : DataMap) (cache : Cache) :
    GdcOut :=
  if !forceUpdate && hasCredentials selfData then
    gdcFinish none (some selfData) selfData saveData cache []
  else
    let cacheKey := findCacheKeyForAddress selfData cache address
    let ensureCond :=
      forceUpdate ||
        (match cacheKey with
         | some k => (alget cache k).isNone
         | none => false)
    if ensureCond then
      let eo := ensureCacheItem env cacheKey selfData cache
      match eo.res with
      | .error e => ⟨.error e, selfData, eo.cache, eo.net⟩
      | .ok itemOpt =>
        let credentials :=
          match itemOpt with
          | some it => alget it.credentials address
          | none => none
        gdcFinish itemOpt credentials selfData saveData eo.cache eo.net
    else
      let itemOpt :=
        match cacheKey with
        | some k => alget cache k
        | none => none
      let credentials :=
        match itemOpt with
        | some it => alget it.credentials address
        | none => none
      gdcFinish itemOpt credentials selfData saveData cache []

/-- State of one `build_cache` sweep (`cloud.py`): both loops share ONE
mutable `data` dict (`data = {}` before the loops; `data.clear();
data.update(...)` at each iteration), and a successful
`_login(data, ENABLE)` stores that very dict BY REFERENCE as the cache
entry's login (`cache_item.login = data` / `TuyaCloudCacheItem(api, data,
{})` — the api, in contrast, captures field values, a snapshot), so later
mutations of the shared dict retroactively rewrite the stored login
snapshots. `shared` is the dict's current content and `aliased` the cache
keys whose entries' login references it; aliased entries' login content is
kept in sync eagerly at every mutation of the shared dict, which is
observationally equivalent to reference semantics because nothing reads a
stored login snapshot between mutations within the sweep. -/
structure BuildCacheState where
  cache : Cache
  shared : DataMap
  aliased : List String
deriving Repr

/-- Rewrite the login of every aliased cache entry to the shared dict's new
content — the effect of `data.clear(); data.update(...)` on entries holding
the dict by reference. -/
def propagateShared (cache : Cache) (aliased : List String)
    (content : DataMap) : Cache :=
  cache.map (fun p =>
    if aliased.contains p.1 then (p.1, { p.2 with login := content }) else p)

/-- One iteration of either loop of `build_cache` (`cloud.py`): first
`data.clear(); data.update(entry)` rewrites the shared dict's content — and
with it every aliased login snapshot; records lacking any of the six login
keys are skipped (a presence check, `k in data`); a login runs only when
the entry is missing or has an empty credentials table, and on success the
entry's login references the shared dict from now on (its key joins the
alias set); after a successful login the re-fetched entry is filled only
when its credentials table is still empty. -/
def buildCacheStep (env : Env) (entry : DataMap) (st : BuildCacheState) :
    Except PyErr BuildCacheState × List NetCall :=
  let shared := entry
  let cache := propagateShared st.cache st.aliased shared
  if !CONF_TUYA_LOGIN_KEYS.all (fun k => pyContains shared k) then
    (.ok ⟨cache, shared, st.aliased⟩, [])
  else
    let key := getCacheKey shared
    let needLogin :=
      match alget cache key with
      | none => true
      | some it => it.credentials.isEmpty
    if needLogin then
      let lo := loginImpl env shared CacheConfiguration.ENABLE cache
      match lo.res with
      | .error e => (.error e, lo.net)
      | .ok resp =>
        if isLoginSuccess resp then
          match alget lo.cache key with
          | some it2 =>
            if it2.credentials.isEmpty then
              let out := fillCacheItem env it2
              (.ok ⟨alinsert lo.cache key out.1, shared, key :: st.aliased⟩,
               lo.net ++ out.2)
            else (.ok ⟨lo.cache, shared, key :: st.aliased⟩, lo.net)
          | none => (.ok ⟨lo.cache, shared, key :: st.aliased⟩, lo.net)
        else (.ok ⟨lo.cache, shared, st.aliased⟩, lo.net)
    else (.ok ⟨cache, shared, st.aliased⟩, [])

/-- A whole loop of `build_cache` over one list of configuration records,
threading the shared-dict state; an uncaught exception in a step aborts the
remaining records (as a raised exception would in Python). -/
def buildCacheList (env : Env) (entries : List DataMap)
    (st : BuildCacheState) : Except PyErr BuildCacheState × List NetCall :=
  match entries with
  | [] => (.ok st, [])
  | e :: rest =>
    match buildCacheStep env e st with
    | (.error err, n) => (.error err, n)
    | (.ok st1, n) =>
      let out := buildCacheList env rest st1
      (out.1, n ++ out.2)

/-- `build_cache` (`cloud.py`): a fresh empty shared dict (`data = {}`,
aliased by no entry yet), the sweep over the regular Tuya config entries,
then — with the same dict — the sweep over the BLE config entries (both
loop bodies are identical). The returned cache still shows the final
shared-dict content in every aliased entry's login: after the function
returns, nothing mutates the dict again. -/
def buildCache (env : Env) (tuyaEntries bleEntries : List DataMap)
    (cache : Cache) : Except PyErr Cache × List NetCall :=
  match buildCacheList env tuyaEntries ⟨cache, [], []⟩ with
  | (.error e, n) => (.error e, n)
  | (.ok st1, n) =>
    match buildCacheList env bleEntries st1 with
    | (.error e, n2) => (.error e, n ++ n2)
    | (.ok st2, n2) => (.ok st2.cache, n ++ n2)

/-- Modelled from the spec: the fixed grace delay constant
`SET_DISCONNECTED_DELAY` from the missing `const.py`; the claims depend only
on it being one fixed value. -/
def SET_DISCONNECTED_DELAY : Nat := 90

/-- State of one `TuyaBLECoordinator` (`devices.py`) together with the
scheduler state it owns: `disconnected` and `unsub` are the instance fields
`_disconnected` and `_unsub_disconnect` (the latter holding the cancel token
of the last timer started, as a timer id); `armed` is the list of timers
actually scheduled and not yet fired or cancelled, as `(id, delay)` pairs;
`nextId` numbers timers; `syncs` counts executions of the device-registry
synchronisation block and `notifies` counts `async_update_listeners` calls. -/
structure PState where
  disconnected : Bool
  unsub : Option Nat
  armed : List (Nat × Nat)
  nextId : Nat
  syncs : Nat
  notifies : Nat
deriving DecidableEq, Repr

/-- The coordinator's initial state (`__init__`): `_disconnected = True`,
no timer. -/
def initPState : PState :=
  ⟨true, none, [], 0, 0, 0⟩

/-- `_async_handle_connect` (`devices.py`): when `_unsub_disconnect` holds a
token it is invoked — cancelling that timer if it is still scheduled — but
the field itself is NOT cleared; then, only on a genuine edge
(`_disconnected` was true), the state flips to connected, the
device-registry synchronisation block runs and the listeners are
notified. -/
def asyncHandleConnect (s : PState) : PState :=
  let s1 :=
    match s.unsub with
    | some t => { s with armed := s.armed.filter (fun p => p.1 != t) }
    | none => s
  if s1.disconnected then
    { s1 with disconnected := false, syncs := s1.syncs + 1,
              notifies := s1.notifies + 1 }
  else s1

/-- `_async_handle_disconnect` (`devices.py`): only when `_unsub_disconnect`
is `None` is a timer scheduled with the fixed grace delay and its cancel
token stored; otherwise the signal is a no-op. -/
def asyncHandleDisconnect (s : PState) : PState :=
  match s.unsub with
  | some _ => s
  | none =>
    { s with unsub := some s.nextId,
             armed := s.armed ++ [(s.nextId, SET_DISCONNECTED_DELAY)],
             nextId := s.nextId + 1 }

/-- `_set_disconnected` (`devices.py`), the timer callback: mark
disconnected, clear the token field, notify the listeners. -/
def setDisconnected (s : PState) : PState :=
  { s with disconnected := true, unsub := none, notifies := s.notifies + 1 }

/-- The scheduler firing timer `t`: only a still-armed timer fires (a
cancelled one never does); firing consumes it and runs
`_set_disconnected`. -/
def fireTimer (t : Nat) (s : PState) : PState :=
  if s.armed.any (fun p => p.1 == t) then
    setDisconnected { s with armed := s.armed.filter (fun p => p.1 != t) }
  else s

/-- A signal delivered to the coordinator: a transport connect callback, a
transport disconnect callback, or the scheduler firing timer `t`. -/
inductive Sig where
  | connect
  | disconnect
  | fire (t : Nat)
deriving DecidableEq, Repr

/-- One step of the presence state machine. -/
def pstep (s : PState) : Sig → PState
  | .connect => asyncHandleConnect s
  | .disconnect => asyncHandleDisconnect s
  | .fire t => fireTimer t s

/-- Run a signal sequence from a given state. -/
def runFrom (s : PState) (sigs : List Sig) : PState :=
  sigs.foldl pstep s

/-- Run a signal sequence from the coordinator's initial state. -/
def runSigs (sigs : List Sig) : PState :=
  runFrom initPState sigs

/-- Helper: first-defined choice of two optional values (used to phrase
lookup after a sequence of insertions). -/
def oOr {α : Type} : Option α → Option α → Option α
  | some v, _ => some v
  | none, b => b

/-- Number of remote login (`connect`) calls in a network log. -/
def countConnect (net : List NetCall) : Nat :=
  (net.filter (fun c => match c with
    | NetCall.connect _ => true
    | _ => false)).length

/-- Number of device-list fetch calls in a network log. -/
def countFetchDevices (net : List NetCall) : Nat :=
  (net.filter (fun c => match c with
    | NetCall.fetchDevices _ => true
    | _ => false)).length

/-- The `(address, record)` insertions the per-device loop of
`_fill_cache_item` performs for a device list, in order. -/
def fillInserts (env : Env) (devs : List Device) : List (String × DataMap) :=
  devs.filterMap (fun d =>
    match env.factoryResp d.id with
    | some (some mac :: _) =>
      some (canonicalMac mac, credRecord (canonicalMac mac) d)
    | _ => none)

/-- Invariant of the presence coordinator's reachable states: the armed-timer
list is empty or the single timer named by the `_unsub_disconnect` token. -/
def PInv (s : PState) : Prop :=
  match s.unsub with
  | none => s.armed = []
  | some t => s.armed = [] ∨ s.armed = [(t, SET_DISCONNECTED_DELAY)]

theorem alget_alinsert {α : Type} (m : List (String × α)) (k k' : String)
    (v : α) :
    alget (alinsert m k v) k' = if k = k' then some v else alget m k' := by
  induction m with
  | nil => simp [alget, alinsert]
  | cons p rest ih =>
    by_cases h1 : p.1 = k
    · by_cases h2 : k = k'
      · simp [alinsert, alget, h1, h2]
      · have h3 : ¬p.1 = k' := fun hc => h2 (h1.symm.trans hc)
        simp [alinsert, alget, h1, h2, h3]
    · by_cases h2 : p.1 = k'
      · have h3 : ¬k = k' := fun hc => h1 (h2.trans hc.symm)
        have h4 : ¬k' = k := fun hc => h3 hc.symm
        simp [alinsert, alget, h1, h2, h3, h4]
      · simp [alinsert, alget, h1, h2, ih]

theorem alget_append {α : Type} (a b : List (String × α)) (k : String) :
    alget (a ++ b) k = oOr (alget a k) (alget b k) := by
  induction a with
  | nil => simp [alget, oOr]
  | cons p rest ih =>
    by_cases h : p.1 = k
    · simp [alget, h, oOr]
    · simp [alget, h, ih]

theorem alget_foldl_alinsert {α : Type} (l : List (String × α))
    (m : List (String × α)) (k : String) :
    alget (l.foldl (fun acc p => alinsert acc p.1 p.2) m) k =
      oOr (alget l.reverse k) (alget m k) := by
  induction l generalizing m with
  | nil => simp [alget, oOr]
  | cons p rest ih =>
    rw [List.foldl_cons, ih, List.reverse_cons, alget_append]
    rcases hr : alget rest.reverse k with _ | v
    · rw [alget_alinsert]
      by_cases h : p.1 = k
      · simp [oOr, alget, h]
      · simp [oOr, alget, h]
    · simp [oOr]

theorem oOr_assoc {α : Type} (a b c : Option α) :
    oOr (oOr a b) c = oOr a (oOr b c) := by
  rcases a with _ | v <;> simp [oOr]

theorem oOr_idem_left {α : Type} (a b : Option α) :
    oOr a (oOr a b) = oOr a b := by
  rcases a with _ | v <;> simp [oOr]

theorem isSome_if {α : Type} (b : Bool) (x : α) :
    (if b then some x else none).isSome = b := by
  cases b <;> simp

theorem fillDevicesLoop_creds (env : Env) (devs : List Device)
    (creds : List (String × DataMap)) :
    (fillDevicesLoop env devs creds).1 =
      (fillInserts env devs).foldl (fun acc p => alinsert acc p.1 p.2) creds := by
  induction devs generalizing creds with
  | nil => simp [fillDevicesLoop, fillInserts]
  | cons d rest ih =>
    rcases h : env.factoryResp d.id with _ | l
    · simp [fillDevicesLoop, fillInserts, h, ih,
            fillInserts.eq_def, List.filterMap_cons]
    · rcases l with _ | ⟨mo, tl⟩
      · simp [fillDevicesLoop, fillInserts, h, ih, List.filterMap_cons]
      · rcases mo with _ | mac
        · simp [fillDevicesLoop, fillInserts, h, ih, List.filterMap_cons]
        · simp [fillDevicesLoop, fillInserts, h, ih, List.filterMap_cons]

theorem fillDevicesLoop_net (env : Env) (devs : List Device)
    (creds : List (String × DataMap)) :
    (fillDevicesLoop env devs creds).2 =
      devs.map (fun d => NetCall.fetchFactory d.id) := by
  induction devs generalizing creds with
  | nil => rfl
  | cons d rest ih => simp [fillDevicesLoop, ih]

theorem fillCacheItem_some (env : Env) (api : DataMap)
    (item : TuyaCloudCacheItem) (hapi : item.api = some api)
    (hs : (env.devicesResp api).success = true) (devs : List Device)
    (hr : (env.devicesResp api).result = some devs) :
    fillCacheItem env item =
      ({ item with credentials := (fillDevicesLoop env devs item.credentials).1 },
       NetCall.fetchDevices api :: (fillDevicesLoop env devs item.credentials).2) := by
  simp [fillCacheItem, hapi, hs, hr]

/-- Claim C7: the credential fill operation `_fill_cache_item` is monotonic
(an address present in the entry's table before the fill still resolves
after it) and idempotent (a second identical fill leaves the table, read at
any address, exactly as after the first fill). -/
theorem c7_fill_monotone_idempotent (env : Env) (item : TuyaCloudCacheItem) :
    (∀ addr r, alget item.credentials addr = some r →
      (alget (fillCacheItem env item).1.credentials addr).isSome = true) ∧
    (∀ addr,
      alget (fillCacheItem env (fillCacheItem env item).1).1.credentials addr =
        alget (fillCacheItem env item).1.credentials addr) := by
  rcases hapi : item.api with _ | api
  · constructor
    · intro addr r h
      simp [fillCacheItem, hapi, h]
    · intro addr
      simp [fillCacheItem, hapi]
  · rcases hs : (env.devicesResp api).success with _ | _
    · constructor
      · intro addr r h
        simp [fillCacheItem, hapi, hs, h]
      · intro addr
        simp [fillCacheItem, hapi, hs]
    · rcases hr : (env.devicesResp api).result with _ | devs
      · constructor
        · intro addr r h
          simp [fillCacheItem, hapi, hs, hr, h]
        · intro addr
          simp [fillCacheItem, hapi, hs, hr]
      · have heq := fillCacheItem_some env api item hapi hs devs hr
        constructor
        · intro addr r h
          rw [heq]
          show (alget ((fillDevicesLoop env devs item.credentials).1) addr).isSome
            = true
          rw [fillDevicesLoop_creds, alget_foldl_alinsert, h]
          rcases alget (fillInserts env devs).reverse addr with _ | v <;>
            simp [oOr]
        · intro addr
          rw [heq]
          have heq2 := fillCacheItem_some env api
            { item with credentials := (fillDevicesLoop env devs item.credentials).1 }
            (by simpa using hapi) hs devs hr
          rw [heq2]
          show alget ((fillDevicesLoop env devs
              (fillDevicesLoop env devs item.credentials).1).1) addr =
            alget ((fillDevicesLoop env devs item.credentials).1) addr
          rw [fillDevicesLoop_creds, fillDevicesLoop_creds,
              alget_foldl_alinsert, alget_foldl_alinsert, oOr_idem_left]

theorem cacheKey_congr (d1 d2 : DataMap)
    (h : ∀ k ∈ CONF_TUYA_LOGIN_KEYS, pyGet d1 k = pyGet d2 k) :
    getCacheKey d1 = getCacheKey d2 := by
  unfold getCacheKey keyDict
  congr 1
  exact List.map_congr_left (fun k hk => by rw [h k hk])

/-- Claim C3: `_get_cache_key` depends only on the six login fields — two
configuration mappings agreeing on them (whatever other fields either holds,
in whatever order) produce identical output — and an absent login field
never errors: it appears in the serialized key dict as the `None`/`null`
placeholder. -/
theorem c3_cache_key_only_login_fields :
    (∀ d1 d2 : DataMap,
      (∀ k ∈ CONF_TUYA_LOGIN_KEYS, pyGet d1 k = pyGet d2 k) →
      getCacheKey d1 = getCacheKey d2) ∧
    (∀ d : DataMap, ∀ k ∈ CONF_TUYA_LOGIN_KEYS, alget d k = none →
      (k, (none : Option String)) ∈ keyDict d) := by
  constructor
  · exact cacheKey_congr
  · intro d k hk h
    have hpg : pyGet d k = none := by simp [pyGet, h]
    have hm : (k, pyGet d k) ∈ keyDict d :=
      List.mem_map_of_mem (fun k => (k, pyGet d k)) hk
    rw [hpg] at hm
    exact hm

theorem loginImpl_failure (env : Env) (data : DataMap)
    (cc : CacheConfiguration) (cache : Cache)
    (hne : data ≠ [])
    (husr : (alget data CONF_USERNAME).isSome = true)
    (hfail : isLoginSuccess (env.connectResp data) = false) :
    loginImpl env data cc cache =
      ⟨.ok (env.connectResp data), cache, [NetCall.connect data]⟩ := by
  have h0 : data.isEmpty = false := by
    cases data with
    | nil => exact absurd rfl hne
    | cons p rest => rfl
  rcases hu : alget data CONF_USERNAME with _ | u
  · rw [hu] at husr
    simp at husr
  · simp [loginImpl, h0, hfail, hu]

/-- Claim C5: for a non-empty login data mapping containing the username
key, when the remote service reports failure `_login` leaves the cache
completely unchanged, returns the service's raw response as a result value
(for any cache configuration), and raises nothing. -/
theorem c5_login_failure_cache_untouched (env : Env) (data : DataMap)
    (cc : CacheConfiguration) (cache : Cache)
    (hne : data ≠ [])
    (husr : pyContains data CONF_USERNAME = true)
    (hfail : isLoginSuccess (env.connectResp data) = false) :
    loginImpl env data cc cache =
      ⟨.ok (env.connectResp data), cache, [NetCall.connect data]⟩ :=
  loginImpl_failure env data cc cache hne husr hfail

/-- Witness for C5 at a concrete failing login. -/
theorem c5_witness :
    pyContains [(CONF_USERNAME, some "u")] CONF_USERNAME = true ∧
    loginImpl
      ⟨fun _ => ⟨false, some "1106", some "permission denied"⟩,
       fun _ => ⟨false, none⟩, fun _ => none⟩
      [(CONF_USERNAME, some "u")] CacheConfiguration.ENABLE [] =
      ⟨.ok ⟨false, some "1106", some "permission denied"⟩, [],
       [NetCall.connect [(CONF_USERNAME, some "u")]]⟩ :=
  ⟨by decide,
   c5_login_failure_cache_untouched _ _ _ _ (by decide) (by decide) rfl⟩

/-- Claim C10: a non-empty data mapping lacking the username key makes
`_login` (hence `login` and `login_cached`, which just delegate) raise
`KeyError` after the remote call returned — whatever the response, success
or failure — instead of returning it; only the empty mapping short-circuits
to an empty result with no network call. -/
theorem c10_login_keyerror_without_username :
    (∀ (env : Env) (data : DataMap) (cc : CacheConfiguration) (cache : Cache),
      data ≠ [] → pyContains data CONF_USERNAME = false →
      loginImpl env data cc cache =
        ⟨.error .keyError, cache, [NetCall.connect data]⟩ ∧
      login env data cc cache = loginImpl env data cc cache ∧
      loginCached env data cc cache = loginImpl env data cc cache) ∧
    (∀ (env : Env) (cc : CacheConfiguration) (cache : Cache),
      loginImpl env [] cc cache = ⟨.ok emptyResponse, cache, []⟩) := by
  constructor
  · intro env data cc cache hne husr
    have h0 : data.isEmpty = false := by
      cases data with
      | nil => exact absurd rfl hne
      | cons p rest => rfl
    have hu : alget data CONF_USERNAME = none := by
      rcases hx : alget data CONF_USERNAME with _ | u
      · rfl
      · rw [pyContains, hx] at husr
        simp at husr
    refine ⟨?_, rfl, rfl⟩
    by_cases hs : isLoginSuccess (env.connectResp data) = true
    · simp [loginImpl, h0, hs, hu]
    · simp [loginImpl, h0, hs, hu]
  · intro env cc cache
    rfl

theorem pinv_step (s : PState) (hs : PInv s) (g : Sig) : PInv (pstep s g) := by
  cases g with
  | connect =>
    rcases hu : s.unsub with _ | t
    · rw [PInv, hu] at hs
      cases hd : s.disconnected <;>
        simp [pstep, asyncHandleConnect, PInv, hu, hs, hd]
    · rw [PInv, hu] at hs
      rcases hs with h | h <;> cases hd : s.disconnected <;>
        simp [pstep, asyncHandleConnect, PInv, hu, h, hd, List.filter]
  | disconnect =>
    rcases hu : s.unsub with _ | t
    · rw [PInv, hu] at hs
      simp [pstep, asyncHandleDisconnect, PInv, hu, hs]
    · rw [PInv, hu] at hs
      simp only [pstep, asyncHandleDisconnect, hu]
      rw [PInv, hu]
      exact hs
  | fire t =>
    by_cases hft : s.armed.any (fun p => p.1 == t) = true
    · rcases hu : s.unsub with _ | t'
      · rw [PInv, hu] at hs
        rw [hs] at hft
        simp at hft
      · rw [PInv, hu] at hs
        rcases hs with h | h
        · rw [h] at hft
          simp at hft
        · rw [h] at hft
          simp at hft
          subst hft
          simp [pstep, fireTimer, h, setDisconnected, PInv, List.filter]
    · simp only [pstep, fireTimer, hft, if_false]
      simpa using hs

theorem pinv_runFrom (s : PState) (hs : PInv s) (sigs : List Sig) :
    PInv (runFrom s sigs) := by
  induction sigs generalizing s with
  | nil => exact hs
  | cons g rest ih => exact ih (pstep s g) (pinv_step s hs g)

theorem pinv_runSigs (sigs : List Sig) : PInv (runSigs sigs) :=
  pinv_runFrom initPState (by simp [PInv, initPState]) sigs

theorem runFrom_fixed (s : PState) (h : ∀ g, pstep s g = s)
    (sigs : List Sig) : runFrom s sigs = s := by
  induction sigs with
  | nil => rfl
  | cons g rest ih =>
    show runFrom (pstep s g) rest = s
    rw [h g]
    exact ih

/-- Claim C8: on every connect signal delivered to the coordinator (in any
reachable state) every armed disconnect timer is cancelled, and the
device-registry synchronisation together with the listener notification
happen exactly when the signal is a genuine edge — the state was
disconnected (and it then always becomes connected); a connect while already
connected neither re-synchronises nor re-notifies. -/
theorem c8_connect_cancel_and_edge (sigs : List Sig) :
    (asyncHandleConnect (runSigs sigs)).armed = [] ∧
    (asyncHandleConnect (runSigs sigs)).disconnected = false ∧
    ((runSigs sigs).disconnected = true →
      (asyncHandleConnect (runSigs sigs)).syncs = (runSigs sigs).syncs + 1 ∧
      (asyncHandleConnect (runSigs sigs)).notifies =
        (runSigs sigs).notifies + 1) ∧
    ((runSigs sigs).disconnected = false →
      (asyncHandleConnect (runSigs sigs)).syncs = (runSigs sigs).syncs ∧
      (asyncHandleConnect (runSigs sigs)).notifies =
        (runSigs sigs).notifies) := by
  have hinv := pinv_runSigs sigs
  rcases hu : (runSigs sigs).unsub with _ | t
  · rw [PInv, hu] at hinv
    cases hd : (runSigs sigs).disconnected <;>
      simp [asyncHandleConnect, hu, hinv, hd]
  · rw [PInv, hu] at hinv
    rcases hinv with h | h <;>
      cases hd : (runSigs sigs).disconnected <;>
        simp [asyncHandleConnect, hu, h, hd, List.filter]

/-- Witness for C8 applied to a concrete reachable state (after a connect
and a disconnect, a timer is armed and the state is connected). -/
theorem c8_witness :
    (asyncHandleConnect (runSigs [Sig.connect, Sig.disconnect])).armed = [] ∧
    (asyncHandleConnect (runSigs [Sig.connect, Sig.disconnect])).disconnected
      = false ∧
    ((runSigs [Sig.connect, Sig.disconnect]).disconnected = true →
      (asyncHandleConnect (runSigs [Sig.connect, Sig.disconnect])).syncs =
        (runSigs [Sig.connect, Sig.disconnect]).syncs + 1 ∧
      (asyncHandleConnect (runSigs [Sig.connect, Sig.disconnect])).notifies =
        (runSigs [Sig.connect, Sig.disconnect]).notifies + 1) ∧
    ((runSigs [Sig.connect, Sig.disconnect]).disconnected = false →
      (asyncHandleConnect (runSigs [Sig.connect, Sig.disconnect])).syncs =
        (runSigs [Sig.connect, Sig.disconnect]).syncs ∧
      (asyncHandleConnect (runSigs [Sig.connect, Sig.disconnect])).notifies =
        (runSigs [Sig.connect, Sig.disconnect]).notifies) :=
  c8_connect_cancel_and_edge [Sig.connect, Sig.disconnect]

/-- Evaluation of the code at the failing signal sequence of claim C2:
after connect, disconnect, connect the coordinator is connected with NO
armed timer (the connect cancelled it) — yet the next disconnect signal is
a no-op (the stale `_unsub_disconnect` token was never cleared), so no
timer is started, and from that state no signal sequence whatsoever can
ever change the state again: the device is stuck connected. The claim (and
the spec) say a disconnect with no pending timer starts exactly one
timer with the grace delay. -/
theorem c2_stale_token_blocks_rearm :
    (runSigs [Sig.connect, Sig.disconnect, Sig.connect]).disconnected
      = false ∧
    (runSigs [Sig.connect, Sig.disconnect, Sig.connect]).armed = [] ∧
    asyncHandleDisconnect (runSigs [Sig.connect, Sig.disconnect, Sig.connect])
      = runSigs [Sig.connect, Sig.disconnect, Sig.connect] ∧
    ∀ sigs,
      runFrom (runSigs [Sig.connect, Sig.disconnect, Sig.connect,
        Sig.disconnect]) sigs =
        runSigs [Sig.connect, Sig.disconnect, Sig.connect, Sig.disconnect] := by
  refine ⟨by decide, by decide, by decide, ?_⟩
  intro sigs
  apply runFrom_fixed
  intro g
  cases g with
  | connect => decide
  | disconnect => decide
  | fire t =>
    have ha : (runSigs [Sig.connect, Sig.disconnect, Sig.connect,
        Sig.disconnect]).armed = [] := by decide
    simp [pstep, fireTimer, ha]

/-- Witness for C3 at concrete mappings: two configurations agreeing on the
six login fields but differing in extra fields and order get the same key;
a configuration missing the password field carries the null placeholder. -/
theorem c3_witness :
    getCacheKey [(CONF_USERNAME, some "u"), (CONF_ENDPOINT, some "e"),
        (CONF_ACCESS_ID, some "a"), (CONF_ACCESS_SECRET, some "s"),
        (CONF_PASSWORD, some "p"), (CONF_COUNTRY_CODE, some "1"),
        (CONF_DEVICE_NAME, some "extra")] =
      getCacheKey [(CONF_ENDPOINT, some "e"), (CONF_ACCESS_ID, some "a"),
        (CONF_ACCESS_SECRET, some "s"), (CONF_USERNAME, some "u"),
        (CONF_PASSWORD, some "p"), (CONF_COUNTRY_CODE, some "1")] ∧
    (CONF_PASSWORD, (none : Option String)) ∈
      keyDict [(CONF_USERNAME, some "u")] :=
  ⟨c3_cache_key_only_login_fields.1 _ _ (by decide),
   c3_cache_key_only_login_fields.2 [(CONF_USERNAME, some "u")]
     CONF_PASSWORD (by decide) (by decide)⟩

/-- Witness for C7 at a concrete oracle and entry: the address stored before
the fill survives it, and a second fill reads back identically. -/
theorem c7_witness :
    alget (TuyaCloudCacheItem.mk (some [(CONF_USERNAME, some "u")]) []
        [("AA:BB:CC:DD:EE:FF", [(CONF_UUID, some "old")])]).credentials
      "AA:BB:CC:DD:EE:FF" = some [(CONF_UUID, some "old")] ∧
    (alget (fillCacheItem
        ⟨fun _ => ⟨true, none, none⟩,
         fun _ => ⟨true, some [⟨some "d1", some "uu", some "kk", some "cat",
           some "pid", some "nm", some "mdl", some "pn"⟩]⟩,
         fun _ => some [some "aabbccddeeff"]⟩
        (TuyaCloudCacheItem.mk (some [(CONF_USERNAME, some "u")]) []
          [("AA:BB:CC:DD:EE:FF", [(CONF_UUID, some "old")])])).1.credentials
      "AA:BB:CC:DD:EE:FF").isSome = true ∧
    (∀ addr,
      alget (fillCacheItem
          ⟨fun _ => ⟨true, none, none⟩,
           fun _ => ⟨true, some [⟨some "d1", some "uu", some "kk", some "cat",
             some "pid", some "nm", some "mdl", some "pn"⟩]⟩,
           fun _ => some [some "aabbccddeeff"]⟩
          (fillCacheItem
            ⟨fun _ => ⟨true, none, none⟩,
             fun _ => ⟨true, some [⟨some "d1", some "uu", some "kk", some "cat",
               some "pid", some "nm", some "mdl", some "pn"⟩]⟩,
             fun _ => some [some "aabbccddeeff"]⟩
            (TuyaCloudCacheItem.mk (some [(CONF_USERNAME, some "u")]) []
              [("AA:BB:CC:DD:EE:FF", [(CONF_UUID, some "old")])])).1).1.credentials
        addr =
      alget (fillCacheItem
          ⟨fun _ => ⟨true, none, none⟩,
           fun _ => ⟨true, some [⟨some "d1", some "uu", some "kk", some "cat",
             some "pid", some "nm", some "mdl", some "pn"⟩]⟩,
           fun _ => some [some "aabbccddeeff"]⟩
          (TuyaCloudCacheItem.mk (some [(CONF_USERNAME, some "u")]) []
            [("AA:BB:CC:DD:EE:FF", [(CONF_UUID, some "old")])])).1.credentials
        addr) :=
  ⟨by decide,
   (c7_fill_monotone_idempotent _ _).1 "AA:BB:CC:DD:EE:FF"
     [(CONF_UUID, some "old")] (by decide),
   (c7_fill_monotone_idempotent _ _).2⟩

/-- Witness for C10: a concrete non-empty mapping without the username key
raises `KeyError` after the network call, and the empty mapping
short-circuits. -/
theorem c10_witness :
    ([(CONF_PASSWORD, some "p")] : DataMap) ≠ [] ∧
    pyContains [(CONF_PASSWORD, some "p")] CONF_USERNAME = false ∧
    loginImpl ⟨fun _ => ⟨true, none, none⟩, fun _ => ⟨false, none⟩,
        fun _ => none⟩ [(CONF_PASSWORD, some "p")]
        CacheConfiguration.DISABLE [] =
      ⟨.error .keyError, [], [NetCall.connect [(CONF_PASSWORD, some "p")]]⟩ ∧
    loginImpl ⟨fun _ => ⟨true, none, none⟩, fun _ => ⟨false, none⟩,
        fun _ => none⟩ [] CacheConfiguration.DISABLE [] =
      ⟨.ok emptyResponse, [], []⟩ :=
  ⟨by decide, by decide,
   (c10_login_keyerror_without_username.1 _ _ _ _ (by decide) (by decide)).1,
   c10_login_keyerror_without_username.2 _ _ []⟩

/-- Counterexample for C1: a mapping holding non-null values for exactly the
five mandatory credential fields — `_has_credentials` is nevertheless
false, because the source checks all eight keys of `CONF_TUYA_DEVICE_KEYS`
(device name, product name and product model included), not the five
mandatory ones the claim names. -/
theorem c1_counterexample_five_fields_not_enough :
    MANDATORY_CREDENTIAL_KEYS.all
      (fun k => (pyGet [(CONF_UUID, some "u"), (CONF_LOCAL_KEY, some "l"),
        (CONF_DEVICE_ID, some "d"), (CONF_CATEGORY, some "c"),
        (CONF_PRODUCT_ID, some "p")] k).isSome) = true ∧
    hasCredentials [(CONF_UUID, some "u"), (CONF_LOCAL_KEY, some "l"),
      (CONF_DEVICE_ID, some "d"), (CONF_CATEGORY, some "c"),
      (CONF_PRODUCT_ID, some "p")] = false := by
  decide

/-- Claim C1 as amended: `_has_credentials(data)` is true iff all EIGHT
device fields are present and non-null; and with `force_update` unset and
all eight fields non-null, `get_device_credentials` computes its result
from the local mapping alone — the cache is passed through untouched and
never read (the output is the same for every cache value) and no network
I/O happens. -/
theorem c1_amended_local_data_short_circuit (env : Env) (address : String)
    (saveData : Bool) (data : DataMap) :
    (hasCredentials data = true ↔
      ((pyGet data CONF_UUID).isSome = true ∧
       (pyGet data CONF_LOCAL_KEY).isSome = true ∧
       (pyGet data CONF_DEVICE_ID).isSome = true ∧
       (pyGet data CONF_CATEGORY).isSome = true ∧
       (pyGet data CONF_PRODUCT_ID).isSome = true ∧
       (pyGet data CONF_DEVICE_NAME).isSome = true ∧
       (pyGet data CONF_PRODUCT_NAME).isSome = true ∧
       (pyGet data CONF_PRODUCT_MODEL).isSome = true)) ∧
    (hasCredentials data = true →
      ∀ cache : Cache,
        getDeviceCredentials env address false saveData data cache =
          ⟨.ok (createCredentialsFromDict data),
           if saveData then dictUpdate data data else data, cache, []⟩) := by
  constructor
  · simp [hasCredentials, CONF_TUYA_DEVICE_KEYS, and_assoc]
  · intro h cache
    have h1 : (pyGet data CONF_UUID).isSome = true := by
      simp [hasCredentials, CONF_TUYA_DEVICE_KEYS] at h
      exact h.1
    have hne : data ≠ [] := by
      intro he
      rw [he] at h1
      simp [pyGet, alget] at h1
    have h0 : data.isEmpty = false := by
      cases data with
      | nil => exact absurd rfl hne
      | cons p rest => rfl
    simp [getDeviceCredentials, h, gdcFinish, h0]

/-- Witness for C1 (amended) at a concrete eight-field mapping and a
non-empty cache. -/
theorem c1_witness :
    hasCredentials [(CONF_UUID, some "u"), (CONF_LOCAL_KEY, some "l"),
      (CONF_DEVICE_ID, some "d"), (CONF_CATEGORY, some "c"),
      (CONF_PRODUCT_ID, some "p"), (CONF_DEVICE_NAME, some "n"),
      (CONF_PRODUCT_NAME, some "pn"), (CONF_PRODUCT_MODEL, some "pm")]
      = true ∧
    getDeviceCredentials
      ⟨fun _ => ⟨true, none, none⟩, fun _ => ⟨false, none⟩, fun _ => none⟩
      "AA:BB:CC:DD:EE:FF" false true
      [(CONF_UUID, some "u"), (CONF_LOCAL_KEY, some "l"),
       (CONF_DEVICE_ID, some "d"), (CONF_CATEGORY, some "c"),
       (CONF_PRODUCT_ID, some "p"), (CONF_DEVICE_NAME, some "n"),
       (CONF_PRODUCT_NAME, some "pn"), (CONF_PRODUCT_MODEL, some "pm")]
      [("stale-key", ⟨none, [(CONF_USERNAME, some "other")], []⟩)] =
      ⟨.ok (createCredentialsFromDict
         [(CONF_UUID, some "u"), (CONF_LOCAL_KEY, some "l"),
          (CONF_DEVICE_ID, some "d"), (CONF_CATEGORY, some "c"),
          (CONF_PRODUCT_ID, some "p"), (CONF_DEVICE_NAME, some "n"),
          (CONF_PRODUCT_NAME, some "pn"), (CONF_PRODUCT_MODEL, some "pm")]),
       if true then dictUpdate
         [(CONF_UUID, some "u"), (CONF_LOCAL_KEY, some "l"),
          (CONF_DEVICE_ID, some "d"), (CONF_CATEGORY, some "c"),
          (CONF_PRODUCT_ID, some "p"), (CONF_DEVICE_NAME, some "n"),
          (CONF_PRODUCT_NAME, some "pn"), (CONF_PRODUCT_MODEL, some "pm")]
         [(CONF_UUID, some "u"), (CONF_LOCAL_KEY, some "l"),
          (CONF_DEVICE_ID, some "d"), (CONF_CATEGORY, some "c"),
          (CONF_PRODUCT_ID, some "p"), (CONF_DEVICE_NAME, some "n"),
          (CONF_PRODUCT_NAME, some "pn"), (CONF_PRODUCT_MODEL, some "pm")]
       else
         [(CONF_UUID, some "u"), (CONF_LOCAL_KEY, some "l"),
          (CONF_DEVICE_ID, some "d"), (CONF_CATEGORY, some "c"),
          (CONF_PRODUCT_ID, some "p"), (CONF_DEVICE_NAME, some "n"),
          (CONF_PRODUCT_NAME, some "pn"), (CONF_PRODUCT_MODEL, some "pm")],
       [("stale-key", ⟨none, [(CONF_USERNAME, some "other")], []⟩)], []⟩ :=
  ⟨by decide,
   (c1_amended_local_data_short_circuit _ "AA:BB:CC:DD:EE:FF" true _).2
     (by decide) _⟩

/-- Counterexample for C6: the sources define no IncompleteCredentialsError
anywhere, and `TuyaBLEDeviceCredentials.create` performs no validation —
constructing a record whose five mandatory fields are all missing (empty)
succeeds and returns the record instead of failing. -/
theorem c6_counterexample_create_unvalidated :
    TuyaBLEDeviceCredentials.create "" "" "" "" "" none none none =
      ⟨"", "", "", "", "", none, none, none⟩ ∧
    createCredentialsFromDict [(CONF_UUID, some "u")] = none :=
  ⟨rfl, by decide⟩

/-- Claim C6 as amended: the constructor `create` accepts any field values
and returns the record of its arguments; incomplete credential mappings are
instead rejected by the caller `_create_credentials_from_dict`, which
returns absent (`None`, never an exception) exactly when some of the five
mandatory fields is absent, null or empty. -/
theorem c6_amended_rejection_in_resolver (m : DataMap) :
    (createCredentialsFromDict m).isSome =
      (pyTruthy (pyGet m CONF_UUID) && pyTruthy (pyGet m CONF_LOCAL_KEY) &&
       pyTruthy (pyGet m CONF_DEVICE_ID) && pyTruthy (pyGet m CONF_CATEGORY) &&
       pyTruthy (pyGet m CONF_PRODUCT_ID)) ∧
    (∀ u l d c p dn pm pn,
      TuyaBLEDeviceCredentials.create u l d c p dn pm pn =
        ⟨u, l, d, c, p, dn, pm, pn⟩) := by
  refine ⟨?_, fun _ _ _ _ _ _ _ _ => rfl⟩
  rcases h1 : pyGet m CONF_UUID with _ | u <;>
  rcases h2 : pyGet m CONF_LOCAL_KEY with _ | l <;>
  rcases h3 : pyGet m CONF_DEVICE_ID with _ | d <;>
  rcases h4 : pyGet m CONF_CATEGORY with _ | c <;>
  rcases h5 : pyGet m CONF_PRODUCT_ID with _ | p <;>
  simp [createCredentialsFromDict, pyTruthy, h1, h2, h3, h4, h5, isSome_if]
  cases hu : u.isEmpty <;> cases hl : l.isEmpty <;> cases hd : d.isEmpty <;>
    cases hc : c.isEmpty <;> cases hp : p.isEmpty <;>
      simp [hu, hl, hd, hc, hp]

/-- Witness for C6 (amended) at a concrete mapping with an empty mandatory
field. -/
theorem c6_witness :
    (createCredentialsFromDict [(CONF_UUID, some "u"),
        (CONF_LOCAL_KEY, some "")]).isSome =
      (pyTruthy (pyGet [(CONF_UUID, some "u"), (CONF_LOCAL_KEY, some "")]
         CONF_UUID) &&
       pyTruthy (pyGet [(CONF_UUID, some "u"), (CONF_LOCAL_KEY, some "")]
         CONF_LOCAL_KEY) &&
       pyTruthy (pyGet [(CONF_UUID, some "u"), (CONF_LOCAL_KEY, some "")]
         CONF_DEVICE_ID) &&
       pyTruthy (pyGet [(CONF_UUID, some "u"), (CONF_LOCAL_KEY, some "")]
         CONF_CATEGORY) &&
       pyTruthy (pyGet [(CONF_UUID, some "u"), (CONF_LOCAL_KEY, some "")]
         CONF_PRODUCT_ID)) ∧
    (∀ u l d c p dn pm pn,
      TuyaBLEDeviceCredentials.create u l d c p dn pm pn =
        ⟨u, l, d, c, p, dn, pm, pn⟩) :=
  c6_amended_rejection_in_resolver [(CONF_UUID, some "u"),
    (CONF_LOCAL_KEY, some "")]

/-- Claim C9: when `get_device_credentials(address, save_data=True)` finds a
per-address credentials record in a cache entry whose mandatory fields are
incomplete (so the call returns absent), the manager's local data is
nevertheless mutated: updated with the entry's login snapshot and then with
the incomplete credentials record. -/
theorem c9_save_data_mutates_on_incomplete (env : Env) (address : String)
    (data : DataMap) (cache : Cache) (K : String)
    (item : TuyaCloudCacheItem) (rec : DataMap)
    (h1 : hasCredentials data = false)
    (h2 : findCacheKeyForAddress data cache address = some K)
    (h3 : alget cache K = some item)
    (h4 : alget item.credentials address = some rec)
    (h5 : rec ≠ [])
    (h6 : createCredentialsFromDict rec = none) :
    getDeviceCredentials env address false true data cache =
      ⟨.ok none, dictUpdate (dictUpdate data item.login) rec, cache, []⟩ := by
  have h5e : rec.isEmpty = false := by
    cases rec with
    | nil => exact absurd rfl h5
    | cons p rest => rfl
  simp [getDeviceCredentials, h1, h2, h3, h4, gdcFinish, h5e, h6]

/-- Witness for C9 at a concrete cache entry whose record for the address
has an empty uuid: the call returns absent but the local data has absorbed
the login snapshot and the incomplete record. -/
theorem c9_witness :
    hasCredentials ([] : DataMap) = false ∧
    findCacheKeyForAddress [] [("k", ⟨none, [(CONF_USERNAME, some "u")],
      [("AA:BB:CC:DD:EE:FF", [(CONF_UUID, some "")])]⟩)] "AA:BB:CC:DD:EE:FF"
      = some "k" ∧
    createCredentialsFromDict [(CONF_UUID, some "")] = none ∧
    getDeviceCredentials
      ⟨fun _ => ⟨false, none, none⟩, fun _ => ⟨false, none⟩, fun _ => none⟩
      "AA:BB:CC:DD:EE:FF" false true []
      [("k", ⟨none, [(CONF_USERNAME, some "u")],
        [("AA:BB:CC:DD:EE:FF", [(CONF_UUID, some "")])]⟩)] =
      ⟨.ok none,
       dictUpdate (dictUpdate []
         (TuyaCloudCacheItem.mk none [(CONF_USERNAME, some "u")]
           [("AA:BB:CC:DD:EE:FF", [(CONF_UUID, some "")])]).login)
         [(CONF_UUID, some "")],
       [("k", ⟨none, [(CONF_USERNAME, some "u")],
         [("AA:BB:CC:DD:EE:FF", [(CONF_UUID, some "")])]⟩)], []⟩ :=
  ⟨by decide, by decide, by decide,
   c9_save_data_mutates_on_incomplete _ "AA:BB:CC:DD:EE:FF" [] _ "k" _
     [(CONF_UUID, some "")] (by decide) (by decide) (by decide) (by decide)
     (by decide) (by decide)⟩

theorem countConnect_cons (c : NetCall) (l : List NetCall) :
    countConnect (c :: l) =
      countConnect l + (match c with | NetCall.connect _ => 1 | _ => 0) := by
  cases c <;> simp [countConnect, List.filter_cons]

theorem countFetchDevices_cons (c : NetCall) (l : List NetCall) :
    countFetchDevices (c :: l) =
      countFetchDevices l +
        (match c with | NetCall.fetchDevices _ => 1 | _ => 0) := by
  cases c <;> simp [countFetchDevices, List.filter_cons]

theorem counts_factoryMap (devs : List Device) :
    countConnect (devs.map (fun d => NetCall.fetchFactory d.id)) = 0 ∧
    countFetchDevices (devs.map (fun d => NetCall.fetchFactory d.id)) = 0 := by
  induction devs with
  | nil => exact ⟨rfl, rfl⟩
  | cons d rest ih =>
    simp only [List.map_cons, countConnect_cons, countFetchDevices_cons]
    simpa using ih

theorem fill_net_counts (env : Env) (item : TuyaCloudCacheItem)
    (api : DataMap) (h : item.api = some api) :
    countConnect (fillCacheItem env item).2 = 0 ∧
    countFetchDevices (fillCacheItem env item).2 = 1 := by
  rcases hs : (env.devicesResp api).success with _ | _
  · simp [fillCacheItem, h, hs, countConnect, countFetchDevices,
      List.filter_cons]
  · rcases hr : (env.devicesResp api).result with _ | devs
    · simp [fillCacheItem, h, hs, hr, countConnect, countFetchDevices,
        List.filter_cons]
    · rw [fillCacheItem_some env api item h hs devs hr]
      constructor
      · show countConnect (NetCall.fetchDevices api ::
          (fillDevicesLoop env devs item.credentials).2) = 0
        rw [countConnect_cons, fillDevicesLoop_net, (counts_factoryMap devs).1]
        rfl
      · show countFetchDevices (NetCall.fetchDevices api ::
          (fillDevicesLoop env devs item.credentials).2) = 1
        rw [countFetchDevices_cons, fillDevicesLoop_net,
          (counts_factoryMap devs).2]
        rfl

theorem login_keys_facts (m : DataMap)
    (h : CONF_TUYA_LOGIN_KEYS.all (fun k => pyContains m k) = true) :
    (alget m CONF_USERNAME).isSome = true ∧ m ≠ [] := by
  simp only [CONF_TUYA_LOGIN_KEYS, List.all_cons, List.all_nil,
    Bool.and_eq_true, Bool.and_true] at h
  obtain ⟨he, ha, hs, hu, hp, hc⟩ := h
  refine ⟨hu, ?_⟩
  intro hnil
  rw [hnil] at hu
  simp [pyContains, alget] at hu

theorem loginImpl_success_enable_new (env : Env) (data : DataMap)
    (cache : Cache)
    (hne : data ≠ [])
    (husr : (alget data CONF_USERNAME).isSome = true)
    (hsucc : isLoginSuccess (env.connectResp data) = true)
    (hmiss : alget cache (getCacheKey data) = none) :
    loginImpl env data CacheConfiguration.ENABLE cache =
      ⟨.ok (env.connectResp data),
       alinsert cache (getCacheKey data) ⟨some data, data, []⟩,
       [NetCall.connect data]⟩ := by
  have h0 : data.isEmpty = false := by
    cases data with
    | nil => exact absurd rfl hne
    | cons p rest => rfl
  rcases hu : alget data CONF_USERNAME with _ | u
  · rw [hu] at husr
    simp at husr
  · simp [loginImpl, h0, hsucc, hu, hmiss]

theorem buildCacheStep_fresh_success (env : Env) (r : DataMap)
    (cache : Cache) (sh : DataMap) (al : List String)
    (hp : CONF_TUYA_LOGIN_KEYS.all (fun k => pyContains r k) = true)
    (hmiss : alget (propagateShared cache al r) (getCacheKey r) = none)
    (hsucc : isLoginSuccess (env.connectResp r) = true) :
    buildCacheStep env r ⟨cache, sh, al⟩ =
      (.ok ⟨alinsert (alinsert (propagateShared cache al r) (getCacheKey r)
              ⟨some r, r, []⟩) (getCacheKey r)
              (fillCacheItem env ⟨some r, r, []⟩).1,
            r, getCacheKey r :: al⟩,
       NetCall.connect r :: (fillCacheItem env ⟨some r, r, []⟩).2) := by
  obtain ⟨husr, hne⟩ := login_keys_facts r hp
  have hlog := loginImpl_success_enable_new env r (propagateShared cache al r)
    hne husr hsucc hmiss
  simp [buildCacheStep, hp, hmiss, hlog, hsucc, alget_alinsert]

theorem buildCacheStep_nonempty_skip (env : Env) (r : DataMap)
    (cache : Cache) (sh : DataMap) (al : List String)
    (item : TuyaCloudCacheItem)
    (hp : CONF_TUYA_LOGIN_KEYS.all (fun k => pyContains r k) = true)
    (hhit : alget (propagateShared cache al r) (getCacheKey r) = some item)
    (hne : item.credentials ≠ []) :
    buildCacheStep env r ⟨cache, sh, al⟩ =
      (.ok ⟨propagateShared cache al r, r, al⟩, []) := by
  have hie : item.credentials.isEmpty = false := by
    cases h : item.credentials with
    | nil => exact absurd h hne
    | cons p rest => rfl
  simp [buildCacheStep, hp, hhit, hie]

theorem buildCacheStep_login_failure (env : Env) (r : DataMap)
    (cache : Cache) (sh : DataMap) (al : List String)
    (hp : CONF_TUYA_LOGIN_KEYS.all (fun k => pyContains r k) = true)
    (hmiss : alget (propagateShared cache al r) (getCacheKey r) = none)
    (hfail : isLoginSuccess (env.connectResp r) = false) :
    buildCacheStep env r ⟨cache, sh, al⟩ =
      (.ok ⟨propagateShared cache al r, r, al⟩, [NetCall.connect r]) := by
  obtain ⟨husr, hne⟩ := login_keys_facts r hp
  have hlog := loginImpl_failure env r CacheConfiguration.ENABLE
    (propagateShared cache al r) hne husr hfail
  simp [buildCacheStep, hp, hmiss, hlog, hfail]

theorem buildCacheList_cons_ok (env : Env) (e : DataMap)
    (rest : List DataMap) (st st1 : BuildCacheState) (n : List NetCall)
    (h : buildCacheStep env e st = (.ok st1, n)) :
    buildCacheList env (e :: rest) st =
      ((buildCacheList env rest st1).1,
       n ++ (buildCacheList env rest st1).2) := by
  have e1 : buildCacheList env (e :: rest) st =
      (match buildCacheStep env e st with
       | (.error err, n) => (.error err, n)
       | (.ok st1, n) =>
         ((buildCacheList env rest st1).1,
          n ++ (buildCacheList env rest st1).2)) := rfl
  rw [e1, h]

/-- Claim C4: when `build_cache` processes two configuration records whose
six login fields agree (hence one shared cache key), the first login
succeeding and its fill yielding a non-empty credentials table, exactly one
login and one device-list fetch happen across both records — the final
cache holds the entry built from the first record's login and fill, its
login snapshot rewritten to the second record's content because the entry
holds the loop's shared data dict by reference; and a record whose login
fails does not abort the sweep — the remaining records are processed on the
cache whose entries changed only by the shared-dict alias propagation. -/
theorem c4_build_cache_one_login_one_fetch (env : Env) (r1 r2 : DataMap)
    (hp1 : CONF_TUYA_LOGIN_KEYS.all (fun k => pyContains r1 k) = true)
    (hp2 : CONF_TUYA_LOGIN_KEYS.all (fun k => pyContains r2 k) = true)
    (hagree : ∀ k ∈ CONF_TUYA_LOGIN_KEYS, pyGet r1 k = pyGet r2 k)
    (hsucc : isLoginSuccess (env.connectResp r1) = true)
    (hfill : (fillCacheItem env ⟨some r1, r1, []⟩).1.credentials ≠ []) :
    (buildCache env [r1, r2] [] []).1 =
      .ok [(getCacheKey r1,
        { (fillCacheItem env ⟨some r1, r1, []⟩).1 with login := r2 })] ∧
    countConnect (buildCache env [r1, r2] [] []).2 = 1 ∧
    countFetchDevices (buildCache env [r1, r2] [] []).2 = 1 ∧
    (∀ (r0 : DataMap) (rest : List DataMap) (cache0 : Cache)
       (sh0 : DataMap) (al0 : List String),
      CONF_TUYA_LOGIN_KEYS.all (fun k => pyContains r0 k) = true →
      alget (propagateShared cache0 al0 r0) (getCacheKey r0) = none →
      isLoginSuccess (env.connectResp r0) = false →
      buildCacheList env (r0 :: rest) ⟨cache0, sh0, al0⟩ =
        ((buildCacheList env rest
            ⟨propagateShared cache0 al0 r0, r0, al0⟩).1,
         NetCall.connect r0 ::
           (buildCacheList env rest
             ⟨propagateShared cache0 al0 r0, r0, al0⟩).2)) := by
  have hkey : getCacheKey r2 = getCacheKey r1 :=
    (cacheKey_congr r1 r2 hagree).symm
  have hstep1 := buildCacheStep_fresh_success env r1 [] [] [] hp1 rfl hsucc
  have hc1 : alinsert (alinsert (propagateShared ([] : Cache)
      ([] : List String) r1) (getCacheKey r1)
      ⟨some r1, r1, []⟩) (getCacheKey r1)
      (fillCacheItem env ⟨some r1, r1, []⟩).1 =
      [(getCacheKey r1, (fillCacheItem env ⟨some r1, r1, []⟩).1)] := by
    simp [propagateShared, alinsert]
  have hstep1q : buildCacheStep env r1 ⟨[], [], []⟩ =
      (.ok ⟨[(getCacheKey r1, (fillCacheItem env ⟨some r1, r1, []⟩).1)],
            r1, [getCacheKey r1]⟩,
       NetCall.connect r1 :: (fillCacheItem env ⟨some r1, r1, []⟩).2) := by
    rw [hstep1, hc1]
  have hprop : propagateShared
      [(getCacheKey r1, (fillCacheItem env ⟨some r1, r1, []⟩).1)]
      [getCacheKey r1] r2 =
      [(getCacheKey r1,
        { (fillCacheItem env ⟨some r1, r1, []⟩).1 with login := r2 })] := by
    simp [propagateShared]
  have hne2 : ({ (fillCacheItem env ⟨some r1, r1, []⟩).1 with
      login := r2 }).credentials ≠ [] := by
    simpa using hfill
  have hstep2 := buildCacheStep_nonempty_skip env r2
    [(getCacheKey r1, (fillCacheItem env ⟨some r1, r1, []⟩).1)]
    r1 [getCacheKey r1]
    ({ (fillCacheItem env ⟨some r1, r1, []⟩).1 with login := r2 }) hp2
    (by rw [hkey, hprop]; simp [alget]) hne2
  have hstep2q : buildCacheStep env r2
      ⟨[(getCacheKey r1, (fillCacheItem env ⟨some r1, r1, []⟩).1)],
       r1, [getCacheKey r1]⟩ =
      (.ok ⟨[(getCacheKey r1,
          { (fillCacheItem env ⟨some r1, r1, []⟩).1 with login := r2 })],
        r2, [getCacheKey r1]⟩, []) := by
    rw [hstep2, hprop]
  have hl2 : buildCacheList env [r2]
      ⟨[(getCacheKey r1, (fillCacheItem env ⟨some r1, r1, []⟩).1)],
       r1, [getCacheKey r1]⟩ =
      (.ok ⟨[(getCacheKey r1,
          { (fillCacheItem env ⟨some r1, r1, []⟩).1 with login := r2 })],
        r2, [getCacheKey r1]⟩, ([] : List NetCall)) := by
    rw [buildCacheList_cons_ok env r2 [] _ _ _ hstep2q]
    rfl
  have hl1 : buildCacheList env [r1, r2] ⟨[], [], []⟩ =
      (.ok ⟨[(getCacheKey r1,
          { (fillCacheItem env ⟨some r1, r1, []⟩).1 with login := r2 })],
        r2, [getCacheKey r1]⟩,
       NetCall.connect r1 :: (fillCacheItem env ⟨some r1, r1, []⟩).2) := by
    rw [buildCacheList_cons_ok env r1 [r2] _ _ _ hstep1q, hl2]
    simp
  have hbc : buildCache env [r1, r2] [] [] =
      (.ok [(getCacheKey r1,
         { (fillCacheItem env ⟨some r1, r1, []⟩).1 with login := r2 })],
       NetCall.connect r1 :: (fillCacheItem env ⟨some r1, r1, []⟩).2) := by
    have e2 : buildCache env [r1, r2] [] [] =
        (match buildCacheList env [r1, r2] ⟨[], [], []⟩ with
         | (.error e, n) => (.error e, n)
         | (.ok st1, n) =>
           match buildCacheList env ([] : List DataMap) st1 with
           | (.error e, n2) => (.error e, n ++ n2)
           | (.ok st2, n2) => (.ok st2.cache, n ++ n2)) := rfl
    rw [e2, hl1]
    simp [buildCacheList]
  have hcnt := fill_net_counts env ⟨some r1, r1, []⟩ r1 rfl
  refine ⟨by rw [hbc], ?_, ?_, ?_⟩
  · rw [hbc]
    show countConnect (NetCall.connect r1 ::
      (fillCacheItem env ⟨some r1, r1, []⟩).2) = 1
    rw [countConnect_cons, hcnt.1]
    rfl
  · rw [hbc]
    show countFetchDevices (NetCall.connect r1 ::
      (fillCacheItem env ⟨some r1, r1, []⟩).2) = 1
    rw [countFetchDevices_cons, hcnt.2]
    rfl
  · intro r0 rest cache0 sh0 al0 hp0 hmiss0 hfail0
    have hstep0 := buildCacheStep_login_failure env r0 cache0 sh0 al0
      hp0 hmiss0 hfail0
    rw [buildCacheList_cons_ok env r0 rest _ _ _ hstep0]
    rfl

/-- Witness for C4: two concrete records sharing the six login fields (the
second carries an extra field), a succeeding login and a one-device fetch —
one login and one fetch in total. -/
theorem c4_witness :
    isLoginSuccess
      ((⟨fun _ => ⟨true, none, none⟩,
         fun _ => ⟨true, some [⟨some "d1", some "uu", some "kk", some "cat",
           some "pid", some "nm", some "mdl", some "pn"⟩]⟩,
         fun _ => some [some "aabbccddeeff"]⟩ : Env).connectResp
        [(CONF_ENDPOINT, some "E"), (CONF_ACCESS_ID, some "A"),
         (CONF_ACCESS_SECRET, some "S"), (CONF_USERNAME, some "U"),
         (CONF_PASSWORD, some "P"), (CONF_COUNTRY_CODE, some "C")]) = true ∧
    countConnect (buildCache
      ⟨fun _ => ⟨true, none, none⟩,
       fun _ => ⟨true, some [⟨some "d1", some "uu", some "kk", some "cat",
         some "pid", some "nm", some "mdl", some "pn"⟩]⟩,
       fun _ => some [some "aabbccddeeff"]⟩
      [[(CONF_ENDPOINT, some "E"), (CONF_ACCESS_ID, some "A"),
        (CONF_ACCESS_SECRET, some "S"), (CONF_USERNAME, some "U"),
        (CONF_PASSWORD, some "P"), (CONF_COUNTRY_CODE, some "C")],
       [(CONF_ENDPOINT, some "E"), (CONF_ACCESS_ID, some "A"),
        (CONF_ACCESS_SECRET, some "S"), (CONF_USERNAME, some "U"),
        (CONF_PASSWORD, some "P"), (CONF_COUNTRY_CODE, some "C"),
        (CONF_DEVICE_NAME, some "extra")]] [] []).2 = 1 ∧
    countFetchDevices (buildCache
      ⟨fun _ => ⟨true, none, none⟩,
       fun _ => ⟨true, some [⟨some "d1", some "uu", some "kk", some "cat",
         some "pid", some "nm", some "mdl", some "pn"⟩]⟩,
       fun _ => some [some "aabbccddeeff"]⟩
      [[(CONF_ENDPOINT, some "E"), (CONF_ACCESS_ID, some "A"),
        (CONF_ACCESS_SECRET, some "S"), (CONF_USERNAME, some "U"),
        (CONF_PASSWORD, some "P"), (CONF_COUNTRY_CODE, some "C")],
       [(CONF_ENDPOINT, some "E"), (CONF_ACCESS_ID, some "A"),
        (CONF_ACCESS_SECRET, some "S"), (CONF_USERNAME, some "U"),
        (CONF_PASSWORD, some "P"), (CONF_COUNTRY_CODE, some "C"),
        (CONF_DEVICE_NAME, some "extra")]] [] []).2 = 1 := by
  have h := c4_build_cache_one_login_one_fetch
    ⟨fun _ => ⟨true, none, none⟩,
     fun _ => ⟨true, some [⟨some "d1", some "uu", some "kk", some "cat",
       some "pid", some "nm", some "mdl", some "pn"⟩]⟩,
     fun _ => some [some "aabbccddeeff"]⟩
    [(CONF_ENDPOINT, some "E"), (CONF_ACCESS_ID, some "A"),
     (CONF_ACCESS_SECRET, some "S"), (CONF_USERNAME, some "U"),
     (CONF_PASSWORD, some "P"), (CONF_COUNTRY_CODE, some "C")]
    [(CONF_ENDPOINT, some "E"), (CONF_ACCESS_ID, some "A"),
     (CONF_ACCESS_SECRET, some "S"), (CONF_USERNAME, some "U"),
     (CONF_PASSWORD, some "P"), (CONF_COUNTRY_CODE, some "C"),
     (CONF_DEVICE_NAME, some "extra")]
    (by decide) (by decide) (by decide) rfl (by decide)
  exact ⟨rfl, h.2.1, h.2.2.1⟩
